import Mathlib

set_option maxHeartbeats 1000000
set_option maxRecDepth 4000

namespace FetchSquads

/-! Shallow embedding of `scripts/fetch_squads.py`: the table classifier,
table selector, column inference, row normalizer, row validator, enrichment
pass, and the per-club URL fallback loop. HTML values are modelled by the
attributes the script actually consumes (header flags, rendered text, link
texts, flag icons). -/

/-! ### String utilities mirroring the Python primitives used by the script -/

/-- Contiguous containment of `needle` in a character list; models the
Python substring test `needle in hay`. -/
def subOf (needle : List Char) : List Char → Bool
  | [] => needle.isEmpty
  | c :: rest => List.isPrefixOf needle (c :: rest) || subOf needle rest

/-- Python `pat in s` (substring containment). -/
def containsSub (s pat : String) : Bool := subOf pat.data s.data

/-- Python `s.startswith(pre)`. -/
def pyStartsWith (s pre : String) : Bool := List.isPrefixOf pre.data s.data

/-- Python `str.isdigit` on a character list: nonempty and all digits. -/
def pyIsDigitL (l : List Char) : Bool := !l.isEmpty && l.all (fun c => c.isDigit)

/-- Python `str.isdigit`. -/
def pyIsDigit (s : String) : Bool := pyIsDigitL s.data

/-- Python `str.strip()` on a character list: whitespace removed at both ends. -/
def stripL (l : List Char) : List Char :=
  ((l.dropWhile Char.isWhitespace).reverse.dropWhile Char.isWhitespace).reverse

/-- Python `str.strip()`. -/
def pyStrip (s : String) : String := ⟨stripL s.data⟩

/-- Python `str.lower()` (character-wise, as the script uses it on header text). -/
def pyLower (s : String) : String := ⟨s.data.map Char.toLower⟩

/-- Python `str.upper()`. -/
def pyUpper (s : String) : String := ⟨s.data.map Char.toUpper⟩

/-! ### HTML data model -/

/-- A `span.flagicon` element as the script consumes it: the `alt` attribute of
its first `img` (`none` when there is no `img` or no `alt` attribute) and the
stripped text of its first `a` link. -/
structure FlagIcon where
  imgAlt : Option String
  linkText : Option String
deriving DecidableEq

/-- A table cell (`td` or `th`) as the script consumes it: whether it is a
`th`, its rendered text (`get_text`, whitespace-joined and stripped), the
stripped texts of its `a` descendants in document order, and its first
`span.flagicon` descendant. -/
structure Cell where
  isTh : Bool
  text : String
  links : List String
  flag : Option FlagIcon
deriving DecidableEq

/-- A `tr` element: its cells in document order. -/
structure Row where
  cells : List Cell
deriving DecidableEq

/-- A `table.wikitable` element: its `tr` rows in document order. -/
structure Table where
  rows : List Row
deriving DecidableEq

/-- Header cell with the given text. -/
def mkTh (s : String) : Cell := { isTh := true, text := s, links := [], flag := none }

/-- Data cell with the given text and no markup. -/
def mkTd (s : String) : Cell := { isTh := false, text := s, links := [], flag := none }

/-! ### Table classifier (`is_player_table`, `has_flagicon`) -/

/-- `has_flagicon`: the table contains at least one `span.flagicon`. -/
def has_flagicon (t : Table) : Bool :=
  t.rows.any (fun r => r.cells.any (fun c => c.flag.isSome))

/-- `table.find_all("th")` texts, lowercased: every `th` in the table in
document order. -/
def thHeaders (t : Table) : List String :=
  ((t.rows.map (fun r => r.cells.filter (fun c => c.isTh))).flatten).map
    (fun c => pyLower c.text)

/-- `is_player_table`: decide whether a wikitable likely represents a
first-team squad. -/
def is_player_table (t : Table) (require_country : Bool) : Bool :=
  let headers := thHeaders t
  if headers.isEmpty then
    false
  else
    let has_player := headers.any (fun h => containsSub h "player" || h == "name")
    let has_position := headers.any (fun h => containsSub h "pos" || containsSub h "position")
    let has_country := headers.any (fun h =>
      (["nation", "nat", "nat.", "country", "nationality"] : List String).any
        (fun term => containsSub h term))
    let has_number := headers.any (fun h =>
      pyStartsWith h "no" || h == "n" || containsSub h "squad number")
    if require_country then
      has_player && has_position && has_country
    else
      has_player && has_position && (has_country || (has_flagicon t && has_number))

/-! ### Table selector (`find_first_team_table`) -/

/-- A matching-candidate heading: the text of its `span.mw-headline` and the
wikitable siblings encountered when walking `find_next_sibling` from it, in
walk order. -/
structure Heading where
  text : String
  sibTables : List Table
deriving DecidableEq

/-- A parsed page: its headline spans in document order, and every
`table.wikitable` of the page in document order (the full-page scan list). -/
structure Doc where
  headings : List Heading
  allTables : List Table
deriving DecidableEq

/-- The heading-text test of `find_first_team_table`. -/
def headingMatches (s : String) : Bool :=
  let t := pyLower s
  containsSub t "first-team squad" || containsSub t "first team squad"

/-- The sibling walk below one heading: return the first strict match, and
otherwise thread the first loose fallback seen so far.  First component:
strict match, second: fallback candidate. -/
def scanSibs : List Table → Option Table → Option Table × Option Table
  | [], fb => (none, fb)
  | t :: rest, fb =>
    if is_player_table t true then (some t, fb)
    else
      let fb' := if fb.isNone && is_player_table t false then some t else fb
      scanSibs rest fb'

/-- The loop over headline spans of `find_first_team_table`. -/
def scanHeadings : List Heading → Option Table → Option Table × Option Table
  | [], fb => (none, fb)
  | h :: rest, fb =>
    if headingMatches h.text then
      match scanSibs h.sibTables fb with
      | (some t, fb') => (some t, fb')
      | (none, fb') => scanHeadings rest fb'
    else
      scanHeadings rest fb

/-- `find_first_team_table`: heading-adjacent strict match, then the
heading-adjacent loose fallback, then full-page strict scan, then full-page
loose scan, then the first wikitable of the page. -/
def find_first_team_table (d : Doc) : Option Table :=
  match scanHeadings d.headings none with
  | (some t, _) => some t
  | (none, some fb) => some fb
  | (none, none) =>
    match d.allTables.find? (fun t => is_player_table t true) with
    | some t => some t
    | none =>
      match d.allTables.find? (fun t => is_player_table t false) with
      | some t => some t
      | none => d.allTables.head?

/-! ### Row normalizer helpers -/

/-- Text of the first link of a flagicon, or empty. -/
def flagLinkText (flag : FlagIcon) : String :=
  match flag.linkText with
  | some l => l
  | none => ""

/-- `extract_country_from_cell`: the alt text of the flag image when present
and nonempty, else the text of the flag link, else empty. -/
def extract_country_from_cell : Option Cell → String
  | none => ""
  | some c =>
    match c.flag with
    | none => ""
    | some flag =>
      match flag.imgAlt with
      | some alt => if alt == "" then flagLinkText flag else pyStrip alt
      | none => flagLinkText flag

/-! ### Column inference (`parse_first_team_table`, header part) -/

/-- The column-index assignment of `parse_first_team_table`: at most one
index per role. -/
structure Cols where
  player : Option Nat := none
  pos : Option Nat := none
  nat : Option Nat := none
  num : Option Nat := none
deriving DecidableEq

/-- One `if`/`elif` chain of the header loop of `parse_first_team_table`:
the matching branch overwrites the stored index for its role. -/
def applyHeader (idx : Nat) (header : String) (c : Cols) : Cols :=
  if containsSub header "player" || header == "name" then
    { c with player := some idx }
  else if containsSub header "pos" || containsSub header "position" then
    { c with pos := some idx }
  else if containsSub header "nation" || containsSub header "nat" ||
      containsSub header "country" then
    { c with nat := some idx }
  else if containsSub header "no" || header == "n" ||
      containsSub header "squad number" || containsSub header "number" then
    { c with num := some idx }
  else c

/-- The header loop of `parse_first_team_table`. -/
def assignColsAux : Nat → List String → Cols → Cols
  | _, [], c => c
  | idx, header :: rest, c => assignColsAux (idx + 1) rest (applyHeader idx header c)

/-- Column assignment from the lowercased header texts. -/
def assignCols (headers : List String) : Cols :=
  assignColsAux 0 headers {}

/-- The sampled first cells: first cell of each of the first five rows after
the header row that have at least one cell. -/
def sampleCells (data_rows : List Row) : List Cell :=
  (data_rows.take 5).filterMap (fun r => r.cells.head?)

/-- The implicit-number-column adjustment of `parse_first_team_table`: when no
number column was assigned and header cells exist, look at the first sampled
first-column value; if it is numeric or empty, column 0 becomes the number
column and the other assigned indices shift up by one. -/
def adjustCols (headers : List String) (data_rows : List Row) : Cols :=
  let c := assignCols headers
  if c.num.isNone && !headers.isEmpty then
    match (sampleCells data_rows).head? with
    | some cell =>
      if pyIsDigit cell.text || cell.text == "" then
        { player := c.player.map (· + 1), pos := c.pos.map (· + 1),
          nat := c.nat.map (· + 1), num := some 0 }
      else c
    | none => c
  else c

/-! ### Row normalizer (`parse_first_team_table`, row part) -/

/-- `get_cell`: the cell at the assigned index, or nothing when the index is
absent or out of range. -/
def get_cell (cells : List Cell) : Option Nat → Option Cell
  | none => none
  | some i => cells.get? i

/-- The resolved player name: text of the first link of the name cell, else
the cell text, else empty when the cell is unavailable. -/
def resolvedName (cols : Cols) (cells : List Cell) : String :=
  match get_cell cells cols.player with
  | some c =>
    match c.links.head? with
    | some l => l
    | none => c.text
  | none => ""

/-- The raw country extraction: text of the last link of the nationality
cell, else the nationality cell text, else (when the nationality cell is
unavailable) the flag marker of the name cell. -/
def countryRaw : Option Cell → Option Cell → String
  | some c, _ =>
    match c.links.getLast? with
    | some l => l
    | none => c.text
  | none, player_cell => extract_country_from_cell player_cell

/-- First maximal run of digits of a character list (`re.findall` first
match for the digit-run pattern). -/
def firstNumberRun (l : List Char) : List Char :=
  (l.dropWhile (fun c => !c.isDigit)).takeWhile (fun c => c.isDigit)

/-- The shirt-number cleanup on a character list: keep the text when, with
dashes and slashes removed, it is purely digits; otherwise extract the first
digit run; otherwise empty. -/
def cleanShirtL (l : List Char) : List Char :=
  if !l.isEmpty && !pyIsDigitL (l.filter (fun c => !(c == '-' || c == '/'))) then
    let run := firstNumberRun l
    if run.isEmpty then [] else run
  else l

/-- The shirt-number cleanup of `parse_first_team_table`. -/
def cleanShirtNumber (s : String) : String := ⟨cleanShirtL s.data⟩

/-- The country-name-to-code table of `parse_first_team_table`. -/
def country_map : List (String × String) :=
  [("Spain", "ESP"), ("Spanish", "ESP"),
   ("Netherlands", "NED"), ("Dutch", "NED"),
   ("England", "ENG"), ("English", "ENG"),
   ("France", "FRA"), ("French", "FRA"),
   ("Germany", "GER"), ("German", "GER"),
   ("Brazil", "BRA"), ("Brazilian", "BRA"),
   ("Argentina", "ARG"), ("Argentine", "ARG"),
   ("Portugal", "POR"), ("Portuguese", "POR"),
   ("Italy", "ITA"), ("Italian", "ITA"),
   ("Belgium", "BEL"), ("Belgian", "BEL"),
   ("Uruguay", "URU"), ("Uruguayan", "URU"),
   ("Colombia", "COL"), ("Colombian", "COL"),
   ("Sweden", "SWE"), ("Swedish", "SWE"),
   ("Norway", "NOR"), ("Norwegian", "NOR"),
   ("Denmark", "DEN"), ("Danish", "DEN"),
   ("Poland", "POL"), ("Polish", "POL"),
   ("Croatia", "CRO"), ("Croatian", "CRO"),
   ("Serbia", "SRB"), ("Serbian", "SRB"),
   ("Ghana", "GHA"), ("Ghanaian", "GHA"),
   ("Senegal", "SEN"), ("Senegalese", "SEN"),
   ("Egypt", "EGY"), ("Egyptian", "EGY"),
   ("Japan", "JPN"), ("Japanese", "JPN"),
   ("South Korea", "KOR"), ("Korean", "KOR"),
   ("Australia", "AUS"), ("Australian", "AUS"),
   ("Canada", "CAN"), ("Canadian", "CAN"),
   ("United States", "USA"), ("American", "USA"), ("USA", "USA"),
   ("Mexico", "MEX"), ("Mexican", "MEX"),
   ("Hungary", "HUN"), ("Hungarian", "HUN"),
   ("Romania", "ROU"), ("Romanian", "ROU"),
   ("Austria", "AUT"), ("Austrian", "AUT"),
   ("Switzerland", "SUI"), ("Swiss", "SUI"),
   ("Wales", "WAL"), ("Welsh", "WAL"),
   ("Scotland", "SCO"), ("Scottish", "SCO"),
   ("Northern Ireland", "NIR"), ("Northern Irish", "NIR"),
   ("Republic of Ireland", "IRL"), ("Irish", "IRL"),
   ("Georgia", "GEO"), ("Georgian", "GEO"),
   ("Mali", "MLI"), ("Malian", "MLI"),
   ("Ivory Coast", "CIV"), ("Ivorian", "CIV"),
   ("Algeria", "ALG"), ("Algerian", "ALG"),
   ("Uzbekistan", "UZB"), ("Uzbek", "UZB"),
   ("Czech Republic", "CZE"), ("Czech", "CZE"),
   ("Israel", "ISR"), ("Israeli", "ISR"),
   ("Ecuador", "ECU"), ("Ecuadorian", "ECU")]

/-- `country_map.get(country, country.upper() if len(country) <= 3 else country)`. -/
def normalizeCountry (c : String) : String :=
  match (country_map.find? (fun p => p.1 == c)).map (fun p => p.2) with
  | some code => code
  | none => if c.length ≤ 3 then pyUpper c else c

/-- The output unit: one CSV row. -/
structure PlayerRec where
  Name : String
  Team : String
  Country : String
  Position : String
  League : String
  ShirtNumber : String
deriving DecidableEq

/-- The per-row body of `parse_first_team_table`: skip rows with fewer than
two cells, resolve each field through `get_cell`, skip rows with an empty
resolved name, normalize the country. -/
def rowRecord (cols : Cols) (team league : String) (r : Row) : Option PlayerRec :=
  let cells := r.cells
  if cells.isEmpty || cells.length < 2 then none
  else
    let player_cell := get_cell cells cols.player
    let name := resolvedName cols cells
    let position :=
      match get_cell cells cols.pos with
      | some c => c.text
      | none => ""
    let country := countryRaw (get_cell cells cols.nat) player_cell
    let shirt_number :=
      match get_cell cells cols.num with
      | some c => cleanShirtNumber c.text
      | none => ""
    if name == "" then none
    else
      let country2 := if country == "" then country else normalizeCountry country
      some { Name := name, Team := team, Country := country2, Position := position,
             League := league, ShirtNumber := shirt_number }

/-- `parse_first_team_table`: headers from the `th` cells of the first row,
column inference with the implicit-number adjustment, then the row loop. -/
def parse_first_team_table (t : Option Table) (team league : String) : List PlayerRec :=
  match t with
  | none => []
  | some tb =>
    match tb.rows with
    | [] => []
    | header_row :: data_rows =>
      let headers := (header_row.cells.filter (fun c => c.isTh)).map
        (fun c => pyLower c.text)
      let cols := adjustCols headers data_rows
      data_rows.filterMap (rowRecord cols team league)

/-! ### Per-club URL fallback (`fetch_club_squad`) -/

def MIN_PLAYER_THRESHOLD : Nat := 10

/-- The URL loop of `fetch_club_squad` over per-URL parse outcomes (an empty
list stands for a fetch failure, a page without a squad table, or a table
parsed to zero rows — the loop treats all three alike and moves on). -/
def fetch_club_squad_aux : List (List PlayerRec) → List PlayerRec → List PlayerRec
  | [], saved => saved
  | rows :: rest, saved =>
    if rows.isEmpty then fetch_club_squad_aux rest saved
    else if MIN_PLAYER_THRESHOLD ≤ rows.length then rows
    else fetch_club_squad_aux rest rows

/-- `fetch_club_squad` over the list of per-URL parse outcomes. -/
def fetch_club_squad (outcomes : List (List PlayerRec)) : List PlayerRec :=
  fetch_club_squad_aux outcomes []

/-- The last non-empty roster among the per-URL outcomes (empty when none). -/
def lastNonEmpty (outcomes : List (List PlayerRec)) : List PlayerRec :=
  ((outcomes.filter (fun rows => !rows.isEmpty)).getLast?).getD []

/-! ### Row validator and enrichment (`is_valid_player_row`, `fill_missing_data`) -/

def invalid_names : List String :=
  ["apps", "goals", "2", "spain", "france", "netherlands"]

def invalid_positions : List String :=
  ["manager", "coach", "assistant coaches", "goalkeeping coach", "—"]

/-- `is_valid_player_row`: reject denylisted or too-short names, staff
positions, and empty names. -/
def is_valid_player_row (row : PlayerRec) : Bool :=
  let name := pyStrip row.Name
  let position := pyLower (pyStrip row.Position)
  if invalid_names.contains (pyLower name) || name.length < 2 then false
  else if invalid_positions.contains position then false
  else if name == "" then false
  else true

/-- The `known_players` table of `search_player_info`, in source order.  The
Python dict literal lets a later duplicate key override an earlier one, which
`knownLookup` reproduces by taking the last binding. -/
def known_players : List (String × String × String) :=
  [("Pedro Porro", "ESP", "23"),
   ("Xavi Simons", "NED", "10"),
   ("Guglielmo Vicario", "ITA", "13"),
   ("Cristian Romero", "ARG", "17"),
   ("Destiny Udogie", "ITA", "38"),
   ("Yves Bissouma", "MLI", "8"),
   ("James Maddison", "ENG", "10"),
   ("Dejan Kulusevski", "SWE", "21"),
   ("Richarlison", "BRA", "9"),
   ("Dominic Solanke", "ENG", "9"),
   ("Mohammed Kudus", "GHA", "11"),
   ("Brennan Johnson", "WAL", "22"),
   ("Micky van de Ven", "NED", "37"),
   ("João Palhinha", "POR", "6"),
   ("Radu Drăgușin", "ROU", "6"),
   ("Kevin Danso", "AUT", "15"),
   ("Ben Davies", "WAL", "33"),
   ("Archie Gray", "ENG", "44"),
   ("Lucas Bergvall", "SWE", "41"),
   ("Pape Matar Sarr", "SEN", "29"),
   ("Rodrigo Bentancur", "URU", "30"),
   ("Mathys Tel", "FRA", "18"),
   ("Randal Kolo Muani", "FRA", "9"),
   ("Wilson Odobert", "FRA", "23"),
   ("Marc-André ter Stegen", "GER", "1"),
   ("Joan García", "ESP", "13"),
   ("Alejandro Balde", "ESP", "3"),
   ("Ronald Araújo", "URU", "4"),
   ("Pau Cubarsí", "ESP", "5"),
   ("Andreas Christensen", "DEN", "15"),
   ("Jules Koundé", "FRA", "23"),
   ("Gavi", "ESP", "6"),
   ("Pedri", "ESP", "8"),
   ("Frenkie de Jong", "NED", "21"),
   ("Ferran Torres", "ESP", "7"),
   ("Robert Lewandowski", "POL", "9"),
   ("Lamine Yamal", "ESP", "10"),
   ("Raphinha", "BRA", "11"),
   ("Marcus Rashford", "ENG", "14"),
   ("Roony Bardghji", "SWE", "28"),
   ("Thibaut Courtois", "BEL", "1"),
   ("Dani Carvajal", "ESP", "2"),
   ("Éder Militão", "BRA", "3"),
   ("David Alaba", "AUT", "4"),
   ("Jude Bellingham", "ENG", "5"),
   ("Eduardo Camavinga", "FRA", "12"),
   ("Vinícius Júnior", "BRA", "7"),
   ("Federico Valverde", "URU", "15"),
   ("Endrick", "BRA", "9"),
   ("Kylian Mbappé", "FRA", "10"),
   ("Rodrygo", "BRA", "11"),
   ("Trent Alexander-Arnold", "ENG", "12"),
   ("Andriy Lunin", "UKR", "13"),
   ("James Trafford", "ENG", "1"),
   ("Stefan Ortega", "GER", "18"),
   ("Gianluigi Donnarumma", "ITA", "25"),
   ("Rúben Dias", "POR", "3"),
   ("John Stones", "ENG", "5"),
   ("Nathan Aké", "NED", "6"),
   ("Joško Gvardiol", "CRO", "24"),
   ("Rodri", "ESP", "16"),
   ("Bernardo Silva", "POR", "20"),
   ("Phil Foden", "ENG", "47"),
   ("Erling Haaland", "NOR", "9"),
   ("Alisson Becker", "BRA", "1"),
   ("Virgil van Dijk", "NED", "4"),
   ("Ibrahima Konaté", "FRA", "5"),
   ("Wataru Endo", "JPN", "3"),
   ("Alexis Mac Allister", "ARG", "10"),
   ("Mohamed Salah", "EGY", "11"),
   ("Florian Wirtz", "GER", "7"),
   ("Dominik Szoboszlai", "HUN", "8"),
   ("Alexander Isak", "SWE", "14"),
   ("Federico Chiesa", "ITA", "7"),
   ("Cody Gakpo", "NED", "18"),
   ("Andy Robertson", "SCO", "26"),
   ("Conor Bradley", "NIR", "12"),
   ("Robert Sánchez", "ESP", "1"),
   ("Marc Cucurella", "ESP", "3"),
   ("Reece James", "ENG", "24"),
   ("Enzo Fernández", "ARG", "8"),
   ("Cole Palmer", "ENG", "20"),
   ("Moisés Caicedo", "ECU", "25"),
   ("Mykhailo Mudryk", "UKR", "10"),
   ("Manuel Neuer", "GER", "1"),
   ("Dayot Upamecano", "FRA", "2"),
   ("Kim Min-jae", "KOR", "3"),
   ("Jonathan Tah", "GER", "4"),
   ("Joshua Kimmich", "GER", "6"),
   ("Serge Gnabry", "GER", "7"),
   ("Leon Goretzka", "GER", "8"),
   ("Harry Kane", "ENG", "9"),
   ("Jamal Musiala", "GER", "10"),
   ("Nicolas Jackson", "SEN", "11"),
   ("Luis Díaz", "COL", "14"),
   ("Michael Olise", "FRA", "17"),
   ("Alphonso Davies", "CAN", "19"),
   ("Wojciech Szczęsny", "POL", ""),
   ("Eric García", "ESP", ""),
   ("Fermín López", "ESP", ""),
   ("Marc Casadó", "ESP", ""),
   ("Dani Olmo", "ESP", ""),
   ("Marc Bernal", "ESP", ""),
   ("Gerard Martín", "ESP", ""),
   ("Marcus Bettinelli", "ENG", "13"),
   ("Rayan Aït-Nouri", "ALG", "21"),
   ("Abdukodir Khusanov", "UZB", "45"),
   ("Rico Lewis", "ENG", "82"),
   ("Tijjani Reijnders", "NED", "4"),
   ("Mateo Kovačić", "CRO", "8"),
   ("Rayan Cherki", "FRA", "10"),
   ("Jérémy Doku", "BEL", "11"),
   ("Nico González", "ESP", "14"),
   ("Savinho", "BRA", "26"),
   ("Matheus Nunes", "POR", "27"),
   ("Kalvin Phillips", "ENG", "44"),
   ("Oscar Bobb", "NOR", "52"),
   ("Omar Marmoush", "EGY", "7"),
   ("Filip Jörgensen", "DEN", "12"),
   ("Gabriel Slonina", "USA", "44"),
   ("Tosin Adarabioyo", "ENG", "4"),
   ("Benoît Badiashile", "FRA", "5"),
   ("Levi Colwill", "ENG", "6"),
   ("Jorrel Hato", "NED", "21"),
   ("Trevoh Chalobah", "ENG", "23"),
   ("Malo Gusto", "FRA", "27"),
   ("Wesley Fofana", "FRA", "29"),
   ("Josh Acheampong", "ENG", "34"),
   ("Dário Essugo", "POR", "14"),
   ("Andrey Santos", "BRA", "17"),
   ("Facundo Buonanotte", "ARG", "40"),
   ("Roméo Lavia", "BEL", "45"),
   ("Reggie Walsh", "ENG", "46"),
   ("Pedro Neto", "POR", "7"),
   ("Liam Delap", "ENG", "9"),
   ("Jamie Gittens", "ENG", "11"),
   ("João Pedro", "BRA", "20"),
   ("Tyrique George", "ENG", "32"),
   ("Marc Guiu", "ESP", "38"),
   ("Estêvão", "BRA", "41"),
   ("Alejandro Garnacho", "ARG", "49"),
   ("Shim Mheuka", "FRA", "62"),
   ("Joe Gomez", "ENG", "2"),
   ("Milos Kerkez", "HUN", "6"),
   ("Hugo Ekitike", "FRA", "22"),
   ("Giorgi Mamardashvili", "GEO", "25"),
   ("Freddie Woodman", "ENG", "28"),
   ("Jeremie Frimpong", "NED", "30"),
   ("Ryan Gravenberch", "NED", "38"),
   ("Curtis Jones", "ENG", "17"),
   ("Giovanni Leoni", "ITA", "15"),
   ("Calvin Ramsay", "SCO", "47"),
   ("Kaide Gordon", "ENG", "49"),
   ("Trent Koné-Doherty", "IRL", "51"),
   ("Amara Nallo", "ENG", "65"),
   ("Kieran Morrison", "NIR", "68"),
   ("Rio Ngumoha", "ENG", "73"),
   ("Jayden Danns", "ENG", "76"),
   ("Wellity Lucky", "ENG", "92"),
   ("Harvey Elliott", "ENG", "19"),
   ("Antonín Kinský", "CZE", "31"),
   ("Brandon Austin", "ENG", "40"),
   ("Djed Spence", "ENG", "24"),
   ("Kōta Takai", "JPN", "25"),
   ("Dane Scarlett", "ENG", "44"),
   ("Luka Vušković", "CRO", "16"),
   ("Yang Min-hyeok", "KOR", "18"),
   ("Manor Solomon", "ISR", "27"),
   ("Ashley Phillips", "ENG", "35"),
   ("Alejo Véliz", "ARG", "36"),
   ("Alfie Devine", "ENG", "45"),
   ("Juan Musso", "ARG", "1"),
   ("José María Giménez", "URU", "2"),
   ("Matteo Ruggeri", "ITA", "3"),
   ("Conor Gallagher", "ENG", "4"),
   ("Johnny Cardoso", "USA", "5"),
   ("Koke", "ESP", "6"),
   ("Antoine Griezmann", "FRA", "7"),
   ("Pablo Barrios", "ESP", "8"),
   ("Alexander Sørloth", "NOR", "9"),
   ("Álex Baena", "ESP", "10"),
   ("Thiago Almada", "ARG", "11"),
   ("Carlos Martín", "ESP", "12"),
   ("Eduardo Camavinga", "FRA", "12"),
   ("Nico O\x27Reilly", "ENG", ""),
   ("Wojciech Szczęsny", "POL", "31"),
   ("Eric García", "ESP", "24"),
   ("Fermín López", "ESP", "16"),
   ("Marc Casadó", "ESP", "32"),
   ("Dani Olmo", "ESP", "19"),
   ("Marc Bernal", "ESP", "22"),
   ("Gerard Martín", "ESP", "18")]

/-- Dict lookup with Python literal semantics: the last binding of a
duplicated key wins. -/
def knownLookup (name : String) : Option (String × String) :=
  (known_players.reverse.find? (fun p => p.1 == name)).map (fun p => p.2)

/-- `search_player_info`: the known-player table first; otherwise the
secondary encyclopedia lookup, abstracted as `webCountry` (it returns a
country or an empty string, and never a shirt number). -/
def search_player_info (webCountry : String → String) (name _team : String) :
    String × String :=
  match knownLookup name with
  | some info => info
  | none => (webCountry name, "")

/-- The per-row enrichment of `fill_missing_data`: fill country and shirt
number only when their stripped current value is empty and the lookup found
something. -/
def fillRow (webCountry : String → String) (row : PlayerRec) : PlayerRec :=
  let country := pyStrip row.Country
  let shirt_number := pyStrip row.ShirtNumber
  let found := search_player_info webCountry row.Name row.Team
  let row1 :=
    if country == "" && !(found.1 == "") then { row with Country := found.1 } else row
  if shirt_number == "" && !(found.2 == "") then { row1 with ShirtNumber := found.2 }
  else row1

/-- `fill_missing_data`: drop invalid rows, enrich the rest in order. -/
def fill_missing_data (webCountry : String → String) (rows : List PlayerRec) :
    List PlayerRec :=
  rows.filterMap (fun row =>
    if is_valid_player_row row then some (fillRow webCountry row) else none)

/-! ### Specification-side notions used by the amended claims -/

/-- A semantic column role. -/
inductive HeaderRole
  | name
  | position
  | nationality
  | number
deriving DecidableEq

/-- The role a single header cell is classified into by the `if`/`elif`
chain: the first matching branch, so position-like headers are never
classified as number columns. -/
def headerRole (h : String) : Option HeaderRole :=
  if containsSub h "player" || h == "name" then some HeaderRole.name
  else if containsSub h "pos" || containsSub h "position" then some HeaderRole.position
  else if containsSub h "nation" || containsSub h "nat" || containsSub h "country" then
    some HeaderRole.nationality
  else if containsSub h "no" || h == "n" ||
      containsSub h "squad number" || containsSub h "number" then
    some HeaderRole.number
  else none

/-- Index (counting from `idx`) of the last element satisfying `p`. -/
def lastMatchFrom (p : String → Bool) : Nat → List String → Option Nat
  | _, [] => none
  | idx, h :: rest =>
    match lastMatchFrom p (idx + 1) rest with
    | some j => some j
    | none => if p h then some idx else none

/-- Header cell classified into the Name role. -/
def isNameHeader (h : String) : Bool := headerRole h == some HeaderRole.name

/-- Header cell classified into the Position role. -/
def isPositionHeader (h : String) : Bool := headerRole h == some HeaderRole.position

/-- Header cell classified into the Nationality role. -/
def isNationalityHeader (h : String) : Bool := headerRole h == some HeaderRole.nationality

/-- Header cell classified into the ShirtNumber role. -/
def isNumberHeader (h : String) : Bool := headerRole h == some HeaderRole.number

/-! ### Concrete pages, tables and rows used to exercise the theorems -/

/-- A squad table whose headers name all four roles explicitly. -/
def tblStrict : Table := ⟨[⟨[mkTh "No.", mkTh "Player", mkTh "Pos.", mkTh "Nation"]⟩]⟩

/-- A squad table with no nationality header but with a flag icon and a
number column, so it passes only the loose classification. -/
def tblLoose : Table :=
  ⟨[⟨[mkTh "No.", mkTh "Player", mkTh "Pos."]⟩,
    ⟨[{ isTh := false, text := "1", links := [], flag := some ⟨some "Spain", none⟩ }]⟩]⟩

/-- A page whose matching heading is followed only by the loose table, while
the full-page table list also holds a strict table. -/
def c1doc : Doc := ⟨[⟨"First-team squad", [tblLoose]⟩], [tblStrict, tblLoose]⟩

/-- Lowercased headers of the implicit-number-column example. -/
def c3headers : List String := ["", "player", "pos.", "nation"]

/-- Data rows whose first-column values are 7, 10, empty, 4, 23. -/
def c3rows : List Row :=
  [⟨[mkTd "7"]⟩, ⟨[mkTd "10"]⟩, ⟨[mkTd ""]⟩, ⟨[mkTd "4"]⟩, ⟨[mkTd "23"]⟩]

/-- Data rows whose first-column values are 7 then a non-numeric value. -/
def c3cexRows : List Row := [⟨[mkTd "7"]⟩, ⟨[mkTd "x"]⟩]

/-- A minimal valid player record. -/
def dummyRec : PlayerRec := ⟨"A B", "T", "", "", "L", ""⟩

/-- Two below-threshold rosters: five players from the first URL, three from
the second. -/
def c4outcomes : List (List PlayerRec) :=
  [List.replicate 5 dummyRec, List.replicate 3 dummyRec]

/-- A nationality cell carrying only a flag icon with alt text, no links and
no visible text. -/
def flagOnlyCell : Cell :=
  { isTh := false, text := "", links := [], flag := some ⟨some "Spain", none⟩ }

/-- A multi-nationality cell with two links. -/
def twoLinksCell : Cell :=
  { isTh := false, text := "t", links := ["Spain", "France"], flag := none }

/-- A fully filled record whose name sits in the known-player table. -/
def kokeRec : PlayerRec := ⟨"Koke", "Atletico Madrid", "ESP", "MF", "LaLiga", "6"⟩

/-- A one-cell data row. -/
def shortRow : Row := ⟨[mkTd "x"]⟩

/-- A known player whose Country holds a single space: non-empty, yet blank
after stripping. -/
def c9cexRec : PlayerRec := ⟨"Koke", "Atletico Madrid", " ", "MF", "LaLiga", "6"⟩

/-- A record already complete, for exercising the frame property. -/
def porroRec : PlayerRec :=
  ⟨"Pedro Porro", "Tottenham Hotspur", "ESP", "DF", "Premier League", "23"⟩

/-- Column assignment whose nationality index lies beyond the row width. -/
def c10cols : Cols := { player := some 0, pos := some 1, nat := some 5, num := none }

/-- A two-cell row whose name cell carries a flag icon. -/
def c10row : Row :=
  ⟨[{ isTh := false, text := "J. Doe", links := ["J. Doe"],
      flag := some ⟨some "Spain", none⟩ }, mkTd "MF"]⟩

/-- A two-cell row with a plain name cell. -/
def c10wRow : Row := ⟨[mkTd "John Smith", mkTd "MF"]⟩

/-- Columns assigning only the name role. -/
def c10wCols : Cols := { player := some 0, pos := none, nat := none, num := none }

/-- The record produced from `c10wRow` under `c10wCols`. -/
def c10wRec : PlayerRec := ⟨"John Smith", "T", "", "", "L", ""⟩

/-! ## Theorems -/

/-! ### C5: classifier monotonicity -/

/-- C5: for every table, passing the strict classification
(`require_country = true`) implies passing the loose classification
(`require_country = false`). -/
theorem c5_strict_implies_loose (t : Table)
    (h : is_player_table t true = true) : is_player_table t false = true := by
  unfold is_player_table at h ⊢
  by_cases he : (thHeaders t).isEmpty
  · simp [he] at h
  · simp only [he, Bool.false_eq_true, if_false, if_true,
      Bool.and_eq_true, Bool.or_eq_true] at h ⊢
    exact ⟨⟨h.1.1, h.1.2⟩, Or.inl h.2⟩

/-- Witness for C5: a concrete table passing the strict classification also
passes the loose one. -/
theorem c5_witness :
    is_player_table tblStrict true = true ∧ is_player_table tblStrict false = true :=
  ⟨by decide, c5_strict_implies_loose tblStrict (by decide)⟩

/-! ### C2: column inference -/

/-- Helper: reading the player field of one elif step. -/
theorem applyHeader_player (idx : Nat) (h : String) (c : Cols) :
    (applyHeader idx h c).player = if isNameHeader h then some idx else c.player := by
  unfold applyHeader isNameHeader headerRole
  split_ifs <;> simp_all

/-- Helper: reading the pos field of one elif step. -/
theorem applyHeader_pos (idx : Nat) (h : String) (c : Cols) :
    (applyHeader idx h c).pos = if isPositionHeader h then some idx else c.pos := by
  unfold applyHeader isPositionHeader headerRole
  split_ifs <;> simp_all

/-- Helper: reading the nat field of one elif step. -/
theorem applyHeader_nat (idx : Nat) (h : String) (c : Cols) :
    (applyHeader idx h c).nat = if isNationalityHeader h then some idx else c.nat := by
  unfold applyHeader isNationalityHeader headerRole
  split_ifs <;> simp_all

/-- Helper: reading the num field of one elif step. -/
theorem applyHeader_num (idx : Nat) (h : String) (c : Cols) :
    (applyHeader idx h c).num = if isNumberHeader h then some idx else c.num := by
  unfold applyHeader isNumberHeader headerRole
  split_ifs <;> simp_all

/-- Helper: the header loop stores, per role, the index of the last header
classified into that role (falling back to the accumulator). -/
theorem assignColsAux_player : ∀ (hs : List String) (idx : Nat) (c : Cols),
    (assignColsAux idx hs c).player =
      match lastMatchFrom isNameHeader idx hs with
      | some j => some j
      | none => c.player
  | [], _, _ => rfl
  | h :: rest, idx, c => by
    simp only [assignColsAux, lastMatchFrom,
      assignColsAux_player rest (idx + 1) (applyHeader idx h c), applyHeader_player]
    cases lastMatchFrom isNameHeader (idx + 1) rest <;>
      cases hn : isNameHeader h <;> simp [hn]

/-- Helper: last-match reading for the pos field. -/
theorem assignColsAux_pos : ∀ (hs : List String) (idx : Nat) (c : Cols),
    (assignColsAux idx hs c).pos =
      match lastMatchFrom isPositionHeader idx hs with
      | some j => some j
      | none => c.pos
  | [], _, _ => rfl
  | h :: rest, idx, c => by
    simp only [assignColsAux, lastMatchFrom,
      assignColsAux_pos rest (idx + 1) (applyHeader idx h c), applyHeader_pos]
    cases lastMatchFrom isPositionHeader (idx + 1) rest <;>
      cases hn : isPositionHeader h <;> simp [hn]

/-- Helper: last-match reading for the nat field. -/
theorem assignColsAux_nat : ∀ (hs : List String) (idx : Nat) (c : Cols),
    (assignColsAux idx hs c).nat =
      match lastMatchFrom isNationalityHeader idx hs with
      | some j => some j
      | none => c.nat
  | [], _, _ => rfl
  | h :: rest, idx, c => by
    simp only [assignColsAux, lastMatchFrom,
      assignColsAux_nat rest (idx + 1) (applyHeader idx h c), applyHeader_nat]
    cases lastMatchFrom isNationalityHeader (idx + 1) rest <;>
      cases hn : isNationalityHeader h <;> simp [hn]

/-- Helper: last-match reading for the num field. -/
theorem assignColsAux_num : ∀ (hs : List String) (idx : Nat) (c : Cols),
    (assignColsAux idx hs c).num =
      match lastMatchFrom isNumberHeader idx hs with
      | some j => some j
      | none => c.num
  | [], _, _ => rfl
  | h :: rest, idx, c => by
    simp only [assignColsAux, lastMatchFrom,
      assignColsAux_num rest (idx + 1) (applyHeader idx h c), applyHeader_num]
    cases lastMatchFrom isNumberHeader (idx + 1) rest <;>
      cases hn : isNumberHeader h <;> simp [hn]

/-- C2 counterexample: in `["player", "name"]` the first header cell matches
the Name tokens, yet the Name role is assigned index 1, not 0 — the loop
keeps the last matching header, not the first. -/
theorem c2_first_match_cex :
    (containsSub "player" "player" || "player" == "name") = true ∧
    (assignCols ["player", "name"]).player = some 1 ∧
    (assignCols ["player", "name"]).player ≠ some 0 := by
  refine ⟨by decide, by decide, by decide⟩

/-- C2 amended: each role is assigned the index of the LAST header cell the
elif chain classifies into that role; each header cell is classified into at
most one role, checked in the order Name, Position, Nationality, ShirtNumber,
so a position-matching header is never classified as a number column. -/
theorem c2_last_match_assignment (headers : List String) :
    (assignCols headers).player = lastMatchFrom isNameHeader 0 headers ∧
    (assignCols headers).pos = lastMatchFrom isPositionHeader 0 headers ∧
    (assignCols headers).nat = lastMatchFrom isNationalityHeader 0 headers ∧
    (assignCols headers).num = lastMatchFrom isNumberHeader 0 headers ∧
    (∀ h, (containsSub h "pos" || containsSub h "position") = true →
      isNumberHeader h = false) := by
  refine ⟨?_, ?_, ?_, ?_, ?_⟩
  · rw [assignCols, assignColsAux_player]
    cases lastMatchFrom isNameHeader 0 headers <;> rfl
  · rw [assignCols, assignColsAux_pos]
    cases lastMatchFrom isPositionHeader 0 headers <;> rfl
  · rw [assignCols, assignColsAux_nat]
    cases lastMatchFrom isNationalityHeader 0 headers <;> rfl
  · rw [assignCols, assignColsAux_num]
    cases lastMatchFrom isNumberHeader 0 headers <;> rfl
  · intro h hp
    unfold isNumberHeader headerRole
    split_ifs <;> simp_all

/-- Witness for C2 amended: on `["position"]` the position role gets index 0
and no number column is assigned, the position header not counting as a
number header. -/
theorem c2_witness :
    (assignCols ["position"]).pos = some 0 ∧
    (assignCols ["position"]).num = none ∧
    isNumberHeader "position" = false :=
  ⟨((c2_last_match_assignment ["position"]).2.1).trans (by decide),
   ((c2_last_match_assignment ["position"]).2.2.2.1).trans (by decide),
   (c2_last_match_assignment ["position"]).2.2.2.2 "position" (by decide)⟩

/-! ### C3: implicit shirt-number column detection -/

/-- C3 counterexample: with headers `["", "player", "pos.", "nation"]` and
first-column values `"7"` then `"x"`, the code still treats column 0 as the
number column although not all sampled values are numeric or empty — only
the first sampled value is ever checked. -/
theorem c3_all_sampled_cex :
    (adjustCols c3headers c3cexRows).num = some 0 ∧
    ((sampleCells c3cexRows).map (fun c => c.text)).all
      (fun s => pyIsDigit s || s == "") = false ∧
    (assignCols c3headers).num = none := by
  refine ⟨by decide, by decide, by decide⟩

/-- C3 amended: when the header row assigned no number column and has at
least one header cell, column 0 is treated as the number column exactly when
the FIRST sampled first-column value (the first cell of the first of the
first five data rows having cells) is numeric or empty; in that case every
other assigned role index is increased by one. -/
theorem c3_first_sample_only (headers : List String) (data_rows : List Row)
    (hnum : (assignCols headers).num = none) (hhd : headers ≠ []) :
    ((adjustCols headers data_rows).num = some 0 ↔
      ∃ cell, (sampleCells data_rows).head? = some cell ∧
        (pyIsDigit cell.text = true ∨ cell.text = "")) ∧
    ((adjustCols headers data_rows).num = some 0 →
      (adjustCols headers data_rows).player = (assignCols headers).player.map (· + 1) ∧
      (adjustCols headers data_rows).pos = (assignCols headers).pos.map (· + 1) ∧
      (adjustCols headers data_rows).nat = (assignCols headers).nat.map (· + 1)) := by
  have hne : headers.isEmpty = false := by
    cases headers with
    | nil => exact absurd rfl hhd
    | cons a l => rfl
  simp only [adjustCols, hnum, Option.isNone_none, hne, Bool.not_false, Bool.and_self,
    if_true]
  cases hs : (sampleCells data_rows).head? with
  | none => simp [hnum]
  | some cell =>
    by_cases hd : (pyIsDigit cell.text || cell.text == "") = true
    · simp only [hd, if_true]
      refine ⟨⟨fun _ => ⟨cell, rfl, ?_⟩, fun _ => trivial⟩,
        fun _ => ⟨trivial, trivial, trivial⟩⟩
      rcases Bool.or_eq_true _ _ |>.mp hd with h1 | h1
      · exact Or.inl h1
      · exact Or.inr (by simpa using h1)
    · simp only [Bool.not_eq_true] at hd
      simp only [hd, Bool.false_eq_true, if_false, hnum]
      constructor
      · constructor
        · intro h0; simp at h0
        · rintro ⟨cell', hc, hdig⟩
          injection hc with hce
          subst hce
          rcases hdig with h1 | h1
          · rw [h1] at hd; simp at hd
          · rw [h1] at hd; simp at hd
      · intro h0; simp at h0

/-- Witness for C3: on the documented example — headers
`["", "player", "pos.", "nation"]` with first-column values 7, 10, empty, 4,
23 — column 0 becomes the number column and the other roles shift to
indices 2, 3, 4. -/
theorem c3_witness :
    (adjustCols c3headers c3rows).num = some 0 ∧
    (adjustCols c3headers c3rows).player = some 2 ∧
    (adjustCols c3headers c3rows).pos = some 3 ∧
    (adjustCols c3headers c3rows).nat = some 4 := by
  have h := c3_first_sample_only c3headers c3rows (by decide) (by decide)
  have h0 : (adjustCols c3headers c3rows).num = some 0 :=
    h.1.mpr ⟨mkTd "7", by decide, Or.inl (by decide)⟩
  obtain ⟨hp, hpos, hnat⟩ := h.2 h0
  exact ⟨h0, hp.trans (by decide), hpos.trans (by decide), hnat.trans (by decide)⟩

/-! ### C4: best-partial recovery -/

/-- Helper: `getLast?` of a cons in terms of the tail. -/
theorem getLast?_cons_eq {α : Type} : ∀ (a : α) (l : List α),
    (a :: l).getLast? =
      match l.getLast? with
      | some x => some x
      | none => some a
  | _, [] => rfl
  | a, b :: m => by
    rw [List.getLast?_cons_cons, getLast?_cons_eq b m]
    cases m.getLast? <;> rfl

/-- Helper: when every outcome is below the threshold, the URL loop returns
the last non-empty outcome (falling back to the accumulator). -/
theorem fetch_aux_below_threshold :
    ∀ (outcomes : List (List PlayerRec)) (saved : List PlayerRec),
    (∀ o ∈ outcomes, o.length < MIN_PLAYER_THRESHOLD) →
    fetch_club_squad_aux outcomes saved =
      match (outcomes.filter (fun rows => !rows.isEmpty)).getLast? with
      | some l => l
      | none => saved
  | [], saved, _ => rfl
  | rows :: rest, saved, h => by
    have hrest : ∀ o ∈ rest, o.length < MIN_PLAYER_THRESHOLD :=
      fun o ho => h o (List.mem_cons_of_mem rows ho)
    by_cases hre : rows.isEmpty
    · rw [show fetch_club_squad_aux (rows :: rest) saved = fetch_club_squad_aux rest saved
        from by simp [fetch_club_squad_aux, hre]]
      rw [fetch_aux_below_threshold rest saved hrest]
      have hf : (rows :: rest).filter (fun rows => !rows.isEmpty) =
          rest.filter (fun rows => !rows.isEmpty) := by
        simp [List.filter_cons, hre]
      rw [hf]
    · have hlen : ¬ MIN_PLAYER_THRESHOLD ≤ rows.length := by
        have := h rows (List.mem_cons_self rows rest)
        omega
      rw [show fetch_club_squad_aux (rows :: rest) saved = fetch_club_squad_aux rest rows
        from by simp [fetch_club_squad_aux, hre, hlen]]
      rw [fetch_aux_below_threshold rest rows hrest]
      have hf : (rows :: rest).filter (fun rows => !rows.isEmpty) =
          rows :: rest.filter (fun rows => !rows.isEmpty) := by
        simp [List.filter_cons, hre]
      rw [hf, getLast?_cons_eq]
      cases (rest.filter (fun rows => !rows.isEmpty)).getLast? <;> rfl

/-- C4 counterexample: with a five-player roster from the first URL and a
three-player roster from the second, both below the threshold, the code
returns the three-player (last) roster, not the five-player (largest) one. -/
theorem c4_best_partial_cex :
    (∀ o ∈ c4outcomes, o.length < MIN_PLAYER_THRESHOLD) ∧
    List.replicate 5 dummyRec ∈ c4outcomes ∧
    (List.replicate 5 dummyRec).length = 5 ∧
    (fetch_club_squad c4outcomes).length = 3 := by
  refine ⟨by decide, by decide, by decide, by decide⟩

/-- C4 amended: when every URL yields a roster below the minimum player
threshold, `fetch_club_squad` returns the LAST non-empty roster seen across
the URLs (empty when all are empty), not the largest one. -/
theorem c4_last_partial (outcomes : List (List PlayerRec))
    (h : ∀ o ∈ outcomes, o.length < MIN_PLAYER_THRESHOLD) :
    fetch_club_squad outcomes = lastNonEmpty outcomes := by
  unfold fetch_club_squad lastNonEmpty
  rw [fetch_aux_below_threshold outcomes [] h]
  cases (outcomes.filter (fun rows => !rows.isEmpty)).getLast? <;> rfl

/-- Witness for C4 amended: on the two below-threshold outcomes the result
is the last non-empty roster. -/
theorem c4_witness : fetch_club_squad c4outcomes = lastNonEmpty c4outcomes :=
  c4_last_partial c4outcomes (by decide)

/-! ### C6: shirt-number cleaning -/

/-- Helper: `dropWhile` skips a prefix whose elements all satisfy the
predicate. -/
theorem dropWhile_append_all {p : Char → Bool} : ∀ (l₁ l₂ : List Char),
    (∀ c ∈ l₁, p c = true) → (l₁ ++ l₂).dropWhile p = l₂.dropWhile p
  | [], _, _ => rfl
  | c :: m, l₂, h => by
    rw [List.cons_append, List.dropWhile_cons, if_pos (h c (List.mem_cons_self c m))]
    exact dropWhile_append_all m l₂ (fun x hx => h x (List.mem_cons_of_mem c hx))

/-- Helper: `takeWhile` collects exactly a satisfying run that is followed by
a failing element (or nothing). -/
theorem takeWhile_append_run {p : Char → Bool} : ∀ (run post : List Char),
    (∀ c ∈ run, p c = true) → (∀ c, post.head? = some c → p c = false) →
    (run ++ post).takeWhile p = run
  | [], post, _, hpost => by
    cases post with
    | nil => rfl
    | cons c k =>
      rw [List.nil_append, List.takeWhile_cons, if_neg]
      simp [hpost c rfl]
  | c :: m, post, hrun, hpost => by
    rw [List.cons_append, List.takeWhile_cons, if_pos (hrun c (List.mem_cons_self c m))]
    rw [takeWhile_append_run m post (fun x hx => hrun x (List.mem_cons_of_mem c hx)) hpost]

/-- C6: the shirt-number cleanup keeps a value that is purely digits once
dashes and slashes are removed; otherwise it extracts the first run of
digits; and when the value has no digit at all it returns the empty
string. -/
theorem c6_shirt_number_cleaning (s : String) :
    (pyIsDigitL (s.data.filter (fun c => !(c == '-' || c == '/'))) = true →
      cleanShirtNumber s = s) ∧
    (∀ pre run post, s.data = pre ++ run ++ post →
      (∀ c ∈ pre, c.isDigit = false) → run ≠ [] → (∀ c ∈ run, c.isDigit = true) →
      (∀ c, post.head? = some c → c.isDigit = false) →
      pyIsDigitL (s.data.filter (fun c => !(c == '-' || c == '/'))) = false →
      cleanShirtNumber s = ⟨run⟩) ∧
    ((∀ c ∈ s.data, c.isDigit = false) → cleanShirtNumber s = "") := by
  refine ⟨?_, ?_, ?_⟩
  · intro h
    show (⟨cleanShirtL s.data⟩ : String) = s
    unfold cleanShirtL
    rw [h]
    simp
  · intro pre run post hsplit hpre hrun_ne hrun hpost hnd
    have hempty : s.data.isEmpty = false := by
      rcases run with _ | ⟨c, m⟩
      · exact absurd rfl hrun_ne
      · rw [hsplit]; cases pre <;> rfl
    have h1 : s.data.dropWhile (fun c => !c.isDigit) = run ++ post := by
      rw [hsplit, List.append_assoc,
        dropWhile_append_all pre (run ++ post) (fun c hc => by simp [hpre c hc])]
      rcases run with _ | ⟨c, m⟩
      · exact absurd rfl hrun_ne
      · rw [List.cons_append, List.dropWhile_cons, if_neg]
        simp [hrun c (List.mem_cons_self c m)]
    have h2 : firstNumberRun s.data = run := by
      unfold firstNumberRun
      rw [h1, takeWhile_append_run run post hrun hpost]
    have hre : run.isEmpty = false := by
      rcases run with _ | ⟨c, m⟩
      · exact absurd rfl hrun_ne
      · rfl
    show (⟨cleanShirtL s.data⟩ : String) = ⟨run⟩
    unfold cleanShirtL
    rw [hempty, hnd, h2]
    simp [hre]
  · intro hall
    cases hdata : s.data with
    | nil =>
      show (⟨cleanShirtL s.data⟩ : String) = ""
      rw [hdata]
      rfl
    | cons c m =>
      have hne : s.data.isEmpty = false := by rw [hdata]; rfl
      have hnd : pyIsDigitL (s.data.filter (fun c => !(c == '-' || c == '/'))) = false := by
        unfold pyIsDigitL
        cases hf : s.data.filter (fun c => !(c == '-' || c == '/')) with
        | nil => rfl
        | cons d k =>
          have hd : d ∈ s.data :=
            List.mem_of_mem_filter (by rw [hf]; exact List.mem_cons_self d k)
          simp [hall d hd]
      have hrun : firstNumberRun s.data = [] := by
        unfold firstNumberRun
        rw [List.dropWhile_eq_nil_iff.mpr (fun c hc => by simp [hall c hc])]
        rfl
      show (⟨cleanShirtL s.data⟩ : String) = ""
      unfold cleanShirtL
      rw [hne, hnd, hrun]
      simp

/-- Witness for C6: `"9/10"` is kept unchanged, `"No. 7"` becomes `"7"`, and
the em-dash placeholder becomes empty. -/
theorem c6_witness :
    cleanShirtNumber "9/10" = "9/10" ∧ cleanShirtNumber "No. 7" = "7" ∧
    cleanShirtNumber "—" = "" := by
  refine ⟨(c6_shirt_number_cleaning "9/10").1 (by decide), ?_,
    (c6_shirt_number_cleaning "—").2.2 (by decide)⟩
  have h := (c6_shirt_number_cleaning "No. 7").2.1 "No. ".data ['7'] []
    (by decide) (by decide) (by decide) (by decide) (by decide) (by decide)
  exact h.trans (by decide)

/-! ### C7: nationality extraction cascade -/

/-- C7 counterexample: a nationality cell with a flag marker (alt text
`"Spain"`) but no hyperlink yields the cell's plain text (here empty), not
the flag alt text. -/
theorem c7_flag_alt_cex :
    countryRaw (some flagOnlyCell) none = "" ∧
    extract_country_from_cell (some flagOnlyCell) = "Spain" ∧
    ("" : String) ≠ "Spain" := ⟨rfl, by decide, by decide⟩

/-- C7 amended: when the nationality cell is available and contains
hyperlinks, the raw country is the text of the last hyperlink; when it
contains no hyperlink, the raw country is the cell's plain text (not the
flag alt text); only when the nationality cell is unavailable (column absent
or row too short) is the name cell's flag marker consulted. -/
theorem c7_nationality_cascade :
    (∀ (c : Cell) (pc : Option Cell) (ls : List String) (l : String),
      c.links = ls ++ [l] → countryRaw (some c) pc = l) ∧
    (∀ (c : Cell) (pc : Option Cell), c.links = [] → countryRaw (some c) pc = c.text) ∧
    (∀ pc : Option Cell, countryRaw none pc = extract_country_from_cell pc) := by
  refine ⟨?_, ?_, fun pc => rfl⟩
  · intro c pc ls l hl
    simp only [countryRaw, hl, List.getLast?_concat]
  · intro c pc hl
    simp only [countryRaw, hl, List.getLast?_nil]

/-- Witness for C7 amended: a two-link cell yields the last link text, a
plain cell yields its text, and a missing nationality cell defers to the
name cell's flag marker. -/
theorem c7_witness :
    countryRaw (some twoLinksCell) none = "France" ∧
    countryRaw (some (mkTd "Spain")) none = "Spain" ∧
    countryRaw none (some flagOnlyCell) = extract_country_from_cell (some flagOnlyCell) :=
  ⟨c7_nationality_cascade.1 twoLinksCell none ["Spain"] "France" (by decide),
   (c7_nationality_cascade.2.1 (mkTd "Spain") none (by decide)).trans (by decide),
   c7_nationality_cascade.2.2 (some flagOnlyCell)⟩

/-! ### C10: totality of cell lookup -/

/-- C10 counterexample: with the nationality column index 5 on a two-cell
row, the cell lookup is empty but the record's Country is not the empty
string — it falls back to the name cell's flag marker and becomes `"ESP"`. -/
theorem c10_empty_country_cex :
    c10row.cells.length = 2 ∧
    (rowRecord c10cols "T" "L" c10row).map (fun q => q.Country) = some "ESP" ∧
    some ("ESP" : String) ≠ some ("" : String) := ⟨rfl, by decide, by decide⟩

/-- C10 amended: cell lookup at an absent or out-of-range index totally
returns nothing; the Position and Shirt Number fields are then empty, a row
whose name cell is unavailable is skipped entirely, and the Country field
falls back to the name cell's flag marker (normalized) rather than being
empty. -/
theorem c10_total_lookup :
    (∀ cells : List Cell, get_cell cells none = none) ∧
    (∀ (cells : List Cell) (i : Nat), cells.length ≤ i → get_cell cells (some i) = none) ∧
    (∀ (cols : Cols) (team league : String) (r : Row) (q : PlayerRec),
      rowRecord cols team league r = some q →
      (get_cell r.cells cols.pos = none → q.Position = "") ∧
      (get_cell r.cells cols.num = none → q.ShirtNumber = "") ∧
      (get_cell r.cells cols.nat = none →
        q.Country =
          (let c0 := extract_country_from_cell (get_cell r.cells cols.player)
           if c0 == "" then c0 else normalizeCountry c0))) ∧
    (∀ (cols : Cols) (team league : String) (r : Row),
      get_cell r.cells cols.player = none → rowRecord cols team league r = none) := by
  refine ⟨fun _ => rfl, ?_, ?_, ?_⟩
  · intro cells i h
    unfold get_cell
    exact List.get?_eq_none.mpr h
  · intro cols team league r q hq
    simp only [rowRecord] at hq
    by_cases h1 : (r.cells.isEmpty || decide (r.cells.length < 2)) = true
    · rw [if_pos h1] at hq; exact absurd hq (by simp)
    · rw [if_neg h1] at hq
      by_cases h2 : (resolvedName cols r.cells == "") = true
      · rw [if_pos h2] at hq; exact absurd hq (by simp)
      · rw [if_neg h2] at hq
        injection hq with hq
        subst hq
        refine ⟨fun hpos => ?_, fun hnum => ?_, fun hnat => ?_⟩
        · show (match get_cell r.cells cols.pos with
            | some c => c.text
            | none => "") = ""
          rw [hpos]
        · show (match get_cell r.cells cols.num with
            | some c => cleanShirtNumber c.text
            | none => "") = ""
          rw [hnum]
        · show (if countryRaw (get_cell r.cells cols.nat) (get_cell r.cells cols.player)
                == "" then
              countryRaw (get_cell r.cells cols.nat) (get_cell r.cells cols.player)
            else
              normalizeCountry
                (countryRaw (get_cell r.cells cols.nat) (get_cell r.cells cols.player))) = _
          rw [hnat]
          rfl
  · intro cols team league r hpl
    have hname : resolvedName cols r.cells = "" := by
      unfold resolvedName
      rw [hpl]
    simp [rowRecord, hname]

/-- Witness for C10 amended: lookup past the end of a two-cell row is empty,
and under name-only column assignment the produced record has empty Position
and Shirt Number. -/
theorem c10_witness :
    get_cell c10wRow.cells (some 5) = none ∧
    rowRecord c10wCols "T" "L" c10wRow = some c10wRec ∧
    c10wRec.Position = "" ∧ c10wRec.ShirtNumber = "" := by
  refine ⟨c10_total_lookup.2.1 c10wRow.cells 5 (by decide), by decide, ?_, ?_⟩
  · exact (c10_total_lookup.2.2.1 c10wCols "T" "L" c10wRow c10wRec (by decide)).1 rfl
  · exact (c10_total_lookup.2.2.1 c10wCols "T" "L" c10wRow c10wRec (by decide)).2.1 rfl

/-! ### C8 and C9: the fill/validate pass -/

/-- Helper: membership in the fill pass output. -/
theorem mem_fill_missing_data {w : String → String} {rows : List PlayerRec}
    {r : PlayerRec} :
    r ∈ fill_missing_data w rows ↔
      ∃ row ∈ rows, is_valid_player_row row = true ∧ r = fillRow w row := by
  unfold fill_missing_data
  rw [List.mem_filterMap]
  constructor
  · rintro ⟨row, hrow, hsome⟩
    by_cases hv : is_valid_player_row row
    · rw [if_pos hv] at hsome
      injection hsome with h
      exact ⟨row, hrow, hv, h.symm⟩
    · rw [if_neg hv] at hsome
      cases hsome
  · rintro ⟨row, hrow, hv, hr⟩
    exact ⟨row, hrow, by rw [if_pos hv, hr]⟩

/-- Helper: enrichment never touches the Name field. -/
theorem fillRow_Name (w : String → String) (row : PlayerRec) :
    (fillRow w row).Name = row.Name := by
  simp only [fillRow]
  split_ifs <;> rfl

/-- Helper: enrichment never touches the Team field. -/
theorem fillRow_Team (w : String → String) (row : PlayerRec) :
    (fillRow w row).Team = row.Team := by
  simp only [fillRow]
  split_ifs <;> rfl

/-- Helper: enrichment never touches the Position field. -/
theorem fillRow_Position (w : String → String) (row : PlayerRec) :
    (fillRow w row).Position = row.Position := by
  simp only [fillRow]
  split_ifs <;> rfl

/-- Helper: enrichment never touches the League field. -/
theorem fillRow_League (w : String → String) (row : PlayerRec) :
    (fillRow w row).League = row.League := by
  simp only [fillRow]
  split_ifs <;> rfl

/-- Helper: a Country that is non-blank after stripping is preserved. -/
theorem fillRow_Country (w : String → String) (row : PlayerRec)
    (h : pyStrip row.Country ≠ "") : (fillRow w row).Country = row.Country := by
  simp only [fillRow]
  have hA : (pyStrip row.Country == "" &&
      !((search_player_info w row.Name row.Team).1 == "")) = false := by
    simp [h]
  simp only [hA, Bool.false_eq_true, if_false]
  split_ifs <;> rfl

/-- Helper: a Shirt Number that is non-blank after stripping is preserved. -/
theorem fillRow_Shirt (w : String → String) (row : PlayerRec)
    (h : pyStrip row.ShirtNumber ≠ "") :
    (fillRow w row).ShirtNumber = row.ShirtNumber := by
  simp only [fillRow]
  have hB : (pyStrip row.ShirtNumber == "" &&
      !((search_player_info w row.Name row.Team).2 == "")) = false := by
    simp [h]
  simp only [hB, Bool.false_eq_true, if_false]
  split_ifs <;> rfl

/-- Helper: `dropWhile` never lengthens a list. -/
theorem length_dropWhile_le (p : Char → Bool) :
    ∀ l : List Char, (l.dropWhile p).length ≤ l.length
  | [] => Nat.le_refl _
  | c :: m => by
    rw [List.dropWhile_cons]
    split_ifs with h
    · exact Nat.le_trans (length_dropWhile_le p m) (Nat.le_succ _)
    · exact Nat.le_refl _

/-- Helper: stripping never lengthens. -/
theorem stripL_length_le (l : List Char) : (stripL l).length ≤ l.length := by
  unfold stripL
  have h1 := length_dropWhile_le Char.isWhitespace l
  have h2 := length_dropWhile_le Char.isWhitespace (l.dropWhile Char.isWhitespace).reverse
  simp only [List.length_reverse] at h1 h2 ⊢
  omega

/-- Helper: lowering a whitespace character leaves it unchanged. -/
theorem toLower_of_isWhitespace (c : Char) (h : c.isWhitespace = true) :
    Char.toLower c = c := by
  simp [Char.isWhitespace] at h
  obtain ((h | h) | h) | h := h <;> subst h <;> decide

/-- Helper: stripping a list with non-whitespace ends is the identity. -/
theorem stripL_eq_self (l : List Char)
    (hhead : ∀ c, l.head? = some c → c.isWhitespace = false)
    (hlast : ∀ c, l.getLast? = some c → c.isWhitespace = false) : stripL l = l := by
  unfold stripL
  have h1 : l.dropWhile Char.isWhitespace = l := by
    cases l with
    | nil => rfl
    | cons c m =>
      rw [List.dropWhile_cons, if_neg]
      simp [hhead c rfl]
  rw [h1]
  have h2 : l.reverse.dropWhile Char.isWhitespace = l.reverse := by
    cases hr : l.reverse with
    | nil => rfl
    | cons c m =>
      rw [List.dropWhile_cons, if_neg]
      have hlc : l.getLast? = some c := by
        rw [← List.head?_reverse l, hr]
        rfl
      simp [hlast c hlc]
  rw [h2, List.reverse_reverse]

/-- Helper: a string whose lowercase form has no whitespace is unchanged by
stripping. -/
theorem strip_eq_of_lower_eq (s t : String) (h : pyLower s = t)
    (ht : ∀ c ∈ t.data, c.isWhitespace = false) : pyStrip s = s := by
  have hmap : s.data.map Char.toLower = t.data := congrArg String.data h
  have hself : stripL s.data = s.data := by
    apply stripL_eq_self
    · intro c hc
      have hth : t.data.head? = some (Char.toLower c) := by
        rw [← hmap, List.head?_map, hc]
        rfl
      have hmem : Char.toLower c ∈ t.data := by
        cases htd : t.data with
        | nil => rw [htd] at hth; cases hth
        | cons d k =>
          rw [htd] at hth
          injection hth with hth
          rw [← hth]
          exact List.mem_cons_self d k
      by_contra hcw
      have hcw' : c.isWhitespace = true := by
        cases hq : c.isWhitespace
        · exact absurd hq hcw
        · rfl
      have := ht (Char.toLower c) hmem
      rw [toLower_of_isWhitespace c hcw'] at this
      rw [this] at hcw'
      cases hcw'
    · intro c hc
      have hth : t.data.getLast? = some (Char.toLower c) := by
        rw [← hmap, List.getLast?_map, hc]
        rfl
      have hmem : Char.toLower c ∈ t.data := List.mem_of_mem_getLast? hth
      by_contra hcw
      have hcw' : c.isWhitespace = true := by
        cases hq : c.isWhitespace
        · exact absurd hq hcw
        · rfl
      have := ht (Char.toLower c) hmem
      rw [toLower_of_isWhitespace c hcw'] at this
      rw [this] at hcw'
      cases hcw'
  show (⟨stripL s.data⟩ : String) = s
  rw [hself]

/-- C8: every record surviving the fill/validate pass has a Name of length
at least 2 whose lowercase form is outside the denylist, and the parser
never emits a record from a row with fewer than two cells or an empty
resolved name. -/
theorem c8_name_invariant :
    (∀ (w : String → String) (rows : List PlayerRec) (r : PlayerRec),
      r ∈ fill_missing_data w rows →
      2 ≤ r.Name.length ∧ invalid_names.contains (pyLower r.Name) = false) ∧
    (∀ (cols : Cols) (team league : String) (r : Row),
      r.cells.length < 2 ∨ resolvedName cols r.cells = "" →
      rowRecord cols team league r = none) := by
  constructor
  · intro w rows r hr
    obtain ⟨row, _hrow, hv, hr'⟩ := mem_fill_missing_data.mp hr
    subst hr'
    rw [fillRow_Name]
    unfold is_valid_player_row at hv
    by_cases hbad : (invalid_names.contains (pyLower (pyStrip row.Name)) ||
        decide ((pyStrip row.Name).length < 2)) = true
    · rw [if_pos hbad] at hv
      cases hv
    · have hbad' := hbad
      simp only [Bool.or_eq_true, not_or, Bool.not_eq_true, decide_eq_true_eq] at hbad'
      obtain ⟨hc, hlen⟩ := hbad'
      constructor
      · have h1 : (pyStrip row.Name).length ≤ row.Name.length := by
          show (stripL row.Name.data).length ≤ row.Name.data.length
          exact stripL_length_le row.Name.data
        omega
      · by_contra hcc
        have hct : invalid_names.contains (pyLower row.Name) = true := by
          cases hq : invalid_names.contains (pyLower row.Name)
          · exact absurd hq hcc
          · rfl
        have hct' : pyLower row.Name = "apps" ∨ pyLower row.Name = "goals" ∨
            pyLower row.Name = "2" ∨ pyLower row.Name = "spain" ∨
            pyLower row.Name = "france" ∨ pyLower row.Name = "netherlands" := by
          simpa [invalid_names, List.contains_eq_any_beq] using hct
        have hstrip : pyStrip row.Name = row.Name := by
          rcases hct' with h | h | h | h | h | h <;>
            exact strip_eq_of_lower_eq _ _ h (by decide)
        rw [hstrip, hct] at hc
        cases hc
  · intro cols team league r hcase
    rcases hcase with hlen | hname
    · simp [rowRecord, hlen]
    · simp [rowRecord, hname]

/-- Witness for C8: the surviving record for a valid known player satisfies
the name invariant, and a one-cell row produces no record. -/
theorem c8_witness :
    (2 ≤ kokeRec.Name.length ∧ invalid_names.contains (pyLower kokeRec.Name) = false) ∧
    rowRecord ({} : Cols) "T" "L" shortRow = none :=
  ⟨c8_name_invariant.1 (fun _ => "") [kokeRec] kokeRec (by decide),
   c8_name_invariant.2 ({} : Cols) "T" "L" shortRow (Or.inl (by decide))⟩

/-- C9 counterexample: a row whose Country holds a single space — non-empty
— still gets its Country overwritten by the enrichment pass, because the
code tests emptiness only after stripping. -/
theorem c9_overwrite_cex :
    c9cexRec.Country ≠ "" ∧
    (fill_missing_data (fun _ => "") [c9cexRec]).map (fun q => q.Country) = ["ESP"] ∧
    ("ESP" : String) ≠ " " := ⟨by decide, by decide, by decide⟩

/-- C9 amended: every record produced by the fill pass comes from an input
row whose Name, Team, Position and League it preserves; the Country and
Shirt Number are preserved whenever they are non-blank after stripping
whitespace (a whitespace-only value may still be overwritten). -/
theorem c9_enrichment_frame (w : String → String) (rows : List PlayerRec)
    (r : PlayerRec) (hr : r ∈ fill_missing_data w rows) :
    ∃ row ∈ rows, r.Name = row.Name ∧ r.Team = row.Team ∧
      r.Position = row.Position ∧ r.League = row.League ∧
      (pyStrip row.Country ≠ "" → r.Country = row.Country) ∧
      (pyStrip row.ShirtNumber ≠ "" → r.ShirtNumber = row.ShirtNumber) := by
  obtain ⟨row, hrow, _hv, hr'⟩ := mem_fill_missing_data.mp hr
  subst hr'
  exact ⟨row, hrow, fillRow_Name w row, fillRow_Team w row, fillRow_Position w row,
    fillRow_League w row, fillRow_Country w row, fillRow_Shirt w row⟩

/-- Witness for C9 amended: a complete record passes through the enrichment
pass with every field intact. -/
theorem c9_witness :
    ∃ row ∈ [porroRec], porroRec.Name = row.Name ∧ porroRec.Team = row.Team ∧
      porroRec.Position = row.Position ∧ porroRec.League = row.League ∧
      (pyStrip row.Country ≠ "" → porroRec.Country = row.Country) ∧
      (pyStrip row.ShirtNumber ≠ "" → porroRec.ShirtNumber = row.ShirtNumber) :=
  c9_enrichment_frame (fun _ => "") [porroRec] porroRec (by decide)

/-! ### C1: table selection fallback tiering -/

/-- Helper: with no strict sibling table, a fallback already found is
carried through the sibling walk untouched. -/
theorem scanSibs_noStrict_some : ∀ (ts : List Table) (x : Table),
    (∀ t ∈ ts, is_player_table t true = false) →
    scanSibs ts (some x) = (none, some x)
  | [], _, _ => rfl
  | t :: rest, x, h => by
    simp only [scanSibs, h t (List.mem_cons_self t rest), Bool.false_eq_true, if_false,
      Option.isNone_some, Bool.false_and, if_false]
    exact scanSibs_noStrict_some rest x (fun u hu => h u (List.mem_cons_of_mem t hu))

/-- Helper: with no strict and no loose sibling table, the walk yields
nothing. -/
theorem scanSibs_noStrict_noLoose : ∀ (ts : List Table),
    (∀ t ∈ ts, is_player_table t true = false) →
    (∀ t ∈ ts, is_player_table t false = false) →
    scanSibs ts none = (none, none)
  | [], _, _ => rfl
  | t :: rest, hs, hl => by
    simp only [scanSibs, hs t (List.mem_cons_self t rest), Bool.false_eq_true, if_false,
      Option.isNone_none, hl t (List.mem_cons_self t rest), Bool.true_and]
    exact scanSibs_noStrict_noLoose rest
      (fun u hu => hs u (List.mem_cons_of_mem t hu))
      (fun u hu => hl u (List.mem_cons_of_mem t hu))

/-- Helper: with no strict sibling table but some loose one, the walk
yields no strict match and remembers a loose sibling table as fallback. -/
theorem scanSibs_noStrict_firstLoose : ∀ (ts : List Table),
    (∀ t ∈ ts, is_player_table t true = false) →
    (∃ t ∈ ts, is_player_table t false = true) →
    ∃ t, t ∈ ts ∧ is_player_table t false = true ∧ scanSibs ts none = (none, some t)
  | [], _, hex => absurd hex (by simp)
  | t :: rest, hs, hex => by
    have ht := hs t (List.mem_cons_self t rest)
    by_cases hl : is_player_table t false = true
    · refine ⟨t, List.mem_cons_self t rest, hl, ?_⟩
      simp only [scanSibs, ht, Bool.false_eq_true, if_false, Option.isNone_none, hl,
        Bool.true_and, if_true]
      exact scanSibs_noStrict_some rest t (fun u hu => hs u (List.mem_cons_of_mem t hu))
    · have hl' : is_player_table t false = false := by
        cases hq : is_player_table t false
        · rfl
        · exact absurd hq hl
      obtain ⟨t', ht', hlt'⟩ := hex
      rcases List.mem_cons.mp ht' with rfl | hmem
      · exact absurd hlt' hl
      · obtain ⟨u, hu, hlu, hscan⟩ := scanSibs_noStrict_firstLoose rest
          (fun v hv => hs v (List.mem_cons_of_mem t hv)) ⟨t', hmem, hlt'⟩
        refine ⟨u, List.mem_cons_of_mem t hu, hlu, ?_⟩
        simp only [scanSibs, ht, Bool.false_eq_true, if_false, Option.isNone_none, hl',
          Bool.true_and]
        exact hscan

/-- Helper: with no strict table under any matching heading, a fallback
already found is carried through the heading loop untouched. -/
theorem scanHeadings_noStrict_some : ∀ (hs : List Heading) (x : Table),
    (∀ h ∈ hs, headingMatches h.text = true →
      ∀ t ∈ h.sibTables, is_player_table t true = false) →
    scanHeadings hs (some x) = (none, some x)
  | [], _, _ => rfl
  | h :: rest, x, hyp => by
    by_cases hm : headingMatches h.text = true
    · simp only [scanHeadings, hm, if_true]
      rw [scanSibs_noStrict_some h.sibTables x (hyp h (List.mem_cons_self h rest) hm)]
      exact scanHeadings_noStrict_some rest x
        (fun g hg => hyp g (List.mem_cons_of_mem h hg))
    · have hm' : headingMatches h.text = false := by
        cases hq : headingMatches h.text
        · rfl
        · exact absurd hq hm
      simp only [scanHeadings, hm', Bool.false_eq_true, if_false]
      exact scanHeadings_noStrict_some rest x
        (fun g hg => hyp g (List.mem_cons_of_mem h hg))

/-- Helper: with no strict table under any matching heading but a loose one
under some matching heading, the heading loop ends with that loose
heading-adjacent table as fallback and no strict match. -/
theorem scanHeadings_noStrict_loose : ∀ (hs : List Heading),
    (∀ h ∈ hs, headingMatches h.text = true →
      ∀ t ∈ h.sibTables, is_player_table t true = false) →
    (∃ h ∈ hs, headingMatches h.text = true ∧
      ∃ t ∈ h.sibTables, is_player_table t false = true) →
    ∃ h t, h ∈ hs ∧ headingMatches h.text = true ∧ t ∈ h.sibTables ∧
      is_player_table t false = true ∧ scanHeadings hs none = (none, some t)
  | [], _, hex => absurd hex (by simp)
  | h :: rest, hyp, hex => by
    by_cases hm : headingMatches h.text = true
    · by_cases hl : ∃ t ∈ h.sibTables, is_player_table t false = true
      · obtain ⟨t, ht, hlt, hscan⟩ := scanSibs_noStrict_firstLoose h.sibTables
          (hyp h (List.mem_cons_self h rest) hm) hl
        refine ⟨h, t, List.mem_cons_self h rest, hm, ht, hlt, ?_⟩
        simp only [scanHeadings, hm, if_true, hscan]
        exact scanHeadings_noStrict_some rest t
          (fun g hg => hyp g (List.mem_cons_of_mem h hg))
      · have hnl : ∀ t ∈ h.sibTables, is_player_table t false = false := by
          intro t ht
          cases hq : is_player_table t false
          · rfl
          · exact absurd ⟨t, ht, hq⟩ hl
        have hscan := scanSibs_noStrict_noLoose h.sibTables
          (hyp h (List.mem_cons_self h rest) hm) hnl
        have hrest : ∃ g ∈ rest, headingMatches g.text = true ∧
            ∃ t ∈ g.sibTables, is_player_table t false = true := by
          obtain ⟨h', hh', hm', t', ht', hlt'⟩ := hex
          rcases List.mem_cons.mp hh' with rfl | hmem
          · exact absurd (hnl t' ht') (by rw [hlt']; simp)
          · exact ⟨h', hmem, hm', t', ht', hlt'⟩
        obtain ⟨h2, t2, hh2, hm2, ht2, hl2, hscan2⟩ := scanHeadings_noStrict_loose rest
          (fun g hg => hyp g (List.mem_cons_of_mem h hg)) hrest
        refine ⟨h2, t2, List.mem_cons_of_mem h hh2, hm2, ht2, hl2, ?_⟩
        simp only [scanHeadings, hm, if_true, hscan]
        exact hscan2
    · have hm' : headingMatches h.text = false := by
        cases hq : headingMatches h.text
        · rfl
        · exact absurd hq hm
      have hrest : ∃ g ∈ rest, headingMatches g.text = true ∧
          ∃ t ∈ g.sibTables, is_player_table t false = true := by
        obtain ⟨h', hh', hm2, hex'⟩ := hex
        rcases List.mem_cons.mp hh' with rfl | hmem
        · exact absurd hm2 hm
        · exact ⟨h', hmem, hm2, hex'⟩
      obtain ⟨h2, t2, hh2, hm2, ht2, hl2, hscan2⟩ := scanHeadings_noStrict_loose rest
        (fun g hg => hyp g (List.mem_cons_of_mem h hg)) hrest
      refine ⟨h2, t2, List.mem_cons_of_mem h hh2, hm2, ht2, hl2, ?_⟩
      simp only [scanHeadings, hm', Bool.false_eq_true, if_false]
      exact hscan2

/-- C1: when no heading-adjacent wikitable passes the strict classification
but at least one passes the loose classification, `find_first_team_table`
returns a loose heading-adjacent table — for every page, so in preference to
any strict table that only the full-page scan would find. -/
theorem c1_loose_near_heading_preferred (d : Doc)
    (h1 : ∀ h ∈ d.headings, headingMatches h.text = true →
      ∀ t ∈ h.sibTables, is_player_table t true = false)
    (h2 : ∃ h ∈ d.headings, headingMatches h.text = true ∧
      ∃ t ∈ h.sibTables, is_player_table t false = true) :
    ∃ t, find_first_team_table d = some t ∧ is_player_table t false = true ∧
      ∃ h ∈ d.headings, headingMatches h.text = true ∧ t ∈ h.sibTables := by
  obtain ⟨h, t, hh, hm, ht, hl, hscan⟩ := scanHeadings_noStrict_loose d.headings h1 h2
  refine ⟨t, ?_, hl, h, hh, hm, ht⟩
  unfold find_first_team_table
  rw [hscan]

/-- Witness for C1: on a page whose matching heading is followed only by a
loose table while the full-page list contains a strict table, the loose
heading-adjacent table is returned. -/
theorem c1_witness :
    ∃ t, find_first_team_table c1doc = some t ∧ is_player_table t false = true ∧
      ∃ h ∈ c1doc.headings, headingMatches h.text = true ∧ t ∈ h.sibTables :=
  c1_loose_near_heading_preferred c1doc (by decide) (by decide)

end FetchSquads
